import Mathlib

/-!
Shallow embedding of the WinToTalk speech dispatch core (src/WinToTalk.py).

The embedding models the observable behaviour of the core as the sequence of
calls the program issues to the external SAPI speech engine (`EngineCall`),
together with an abstract engine state (`EngineState`) driven by those calls.
Pure helpers (`rate_to_sapi`, voice selection) are translated directly from
the Python source; Python exceptions are modelled with `Except`, and the
`try/except` wrapper of `process_message` catches them.

Python string operations used by the source (`str.lower`, `startswith`,
substring `in`) are modelled over the character list of a `String`, since
they are case mappings over the characters.
-/

namespace WinToTalk

/-- Character-list lowercasing, modelling Python `str.lower()` on the ASCII
voice/gender/type strings the program compares. -/
def lowerL (s : String) : List Char := s.data.map Char.toLower

/-- Substring test, modelling Python `needle in hay` on strings: `needle`
occurs contiguously in `hay` (the empty string occurs in every string). -/
def hasSub (needle : List Char) : List Char → Bool
  | [] => needle.isEmpty
  | c :: t => needle.isPrefixOf (c :: t) || hasSub needle t

/-! ### Voice configuration (WinToTalk.py lines 23-32) -/

def EN_NEUTRAL : String := "Microsoft Catherine"

def EN_FEMALE : String := "Microsoft Susan"

def EN_MALE : String := "Microsoft Richard"

def DE_NEUTRAL : String := "Microsoft Hedda Desktop"

def DE_FEMALE : String := "Microsoft Katja"

def DE_MALE : String := "Microsoft Karsten"

/-- `DEFAULT_RATE = 300`, default words per minute. -/
def DEFAULT_RATE : Int := 300

/-- `DEFAULT_VOLUME = 100`, default volume. -/
def DEFAULT_VOLUME : Int := 100

/-- `rate_to_sapi` (WinToTalk.py lines 41-46): `diff = rate_wpm - 200`;
`sapi_rate = int(diff / 20)` — Python `int(...)` of a float quotient
truncates toward zero, i.e. `Int.tdiv`; then clamp to `[-10, 10]` via
`max(-10, min(10, sapi_rate))`. -/
def rate_to_sapi (rate_wpm : Int) : Int :=
  let baseline : Int := 200
  let diff := rate_wpm - baseline
  let sapi_rate := Int.tdiv diff 20
  max (-10) (min 10 sapi_rate)

/-- The six voice-identity constants the source names with the string keys of
`VOICE_MAP` ("EN_NEUTRAL", ... , "DE_MALE"). -/
inductive VoiceId where
  | EN_NEUTRAL
  | EN_FEMALE
  | EN_MALE
  | DE_NEUTRAL
  | DE_FEMALE
  | DE_MALE
deriving DecidableEq

/-- `VOICE_MAP` (WinToTalk.py lines 50-57): identity constant to engine
display name. -/
def VOICE_MAP : VoiceId → String
  | .EN_NEUTRAL => EN_NEUTRAL
  | .EN_FEMALE => EN_FEMALE
  | .EN_MALE => EN_MALE
  | .DE_NEUTRAL => DE_NEUTRAL
  | .DE_FEMALE => DE_FEMALE
  | .DE_MALE => DE_MALE

/-- The branching of `select_voice` (WinToTalk.py lines 61-73) that picks the
identity constant: `language.lower().startswith("german")` chooses the German
axis, otherwise English; `gender.lower() == "male"` / `== "female"` choose
the gender, anything else is neutral. -/
def chooseVoiceId (language gender : String) : VoiceId :=
  if "german".data.isPrefixOf (lowerL language) then
    if lowerL gender = "male".data then .DE_MALE
    else if lowerL gender = "female".data then .DE_FEMALE
    else .DE_NEUTRAL
  else
    if lowerL gender = "male".data then .EN_MALE
    else if lowerL gender = "female".data then .EN_FEMALE
    else .EN_NEUTRAL

/-- JSON values as produced by `json.loads` for the wire messages (strings,
integers, objects, null are the shapes the protocol uses). -/
inductive JsonVal where
  | str : String → JsonVal
  | num : Int → JsonVal
  | obj : List (String × JsonVal) → JsonVal
  | null : JsonVal

/-- Calls the program issues to the external SAPI engine object `SpVoice`:
`Speak("", 3)` is `purge`, `.Volume = v` is `setVolume`, `.Rate = r` is
`setRate`, `.Voice = v` is `setVoice` (recorded by the matched voice
description), `Speak(text, 1)` is `speakAsync`. -/
inductive EngineCall where
  | purge
  | setVolume : Int → EngineCall
  | setRate : Int → EngineCall
  | setVoice : String → EngineCall
  | speakAsync : JsonVal → EngineCall

/-- The `for v in SpVoice.GetVoices()` loop of `select_voice` (lines 77-81):
first enumerated voice whose description contains the target display name,
case-insensitively. The engine's available voices are modelled by their
description strings. -/
def findVoice (voice_name : String) : List String → Option String
  | [] => none
  | v :: rest =>
    if hasSub (lowerL voice_name) (lowerL v) then some v
    else findVoice voice_name rest

/-- Result of `select_voice`: the returned pair `(chosen, name)`, the engine
calls issued (`SpVoice.Voice = v` when a voice matched), and whether the
fallback warning was printed. -/
structure VoiceSelection where
  chosen : VoiceId
  name : String
  events : List EngineCall
  warned : Bool

/-- `select_voice` (WinToTalk.py lines 59-85): pick the identity constant,
look its display name up among the engine's enumerated voices; on a match set
the engine voice and return `(chosen, voice_name)`; otherwise print a warning
and return `(chosen, "Default system voice")` without touching the engine. -/
def select_voice (available : List String) (language gender : String) :
    VoiceSelection :=
  let chosen := chooseVoiceId language gender
  let voice_name := VOICE_MAP chosen
  match findVoice voice_name available with
  | some v => ⟨chosen, voice_name, [.setVoice v], false⟩
  | none => ⟨chosen, "Default system voice", [], true⟩

/-- Voice Catalog resolution as the specification words it (§4.1): normalize
`language` by case-insensitive prefix match on "german", else English;
normalize `genderHint` by exact case-insensitive match on "male"/"female",
anything else maps to Neutral. Stated independently of the source to compare
against `select_voice`. -/
def resolveSpec (language genderHint : String) : VoiceId :=
  let german := "german".data.isPrefixOf (lowerL language)
  let g := lowerL genderHint
  if german then
    if g = "male".data then .DE_MALE
    else if g = "female".data then .DE_FEMALE
    else .DE_NEUTRAL
  else
    if g = "male".data then .EN_MALE
    else if g = "female".data then .EN_FEMALE
    else .EN_NEUTRAL

/-- `cancel_speech` (WinToTalk.py lines 106-109): under the voice lock, issue
`SpVoice.Speak("", 3)`, the purge/stop call. -/
def cancel_speech : List EngineCall := [.purge]

/-- Body of the `run()` closure inside `speak` (WinToTalk.py lines 92-97):
under the voice lock set volume (clamped to `[0, 100]`), set rate via
`rate_to_sapi`, select the voice, then `SpVoice.Speak(text, 1)`
(asynchronous). A wire value of the wrong Python type raises inside the
thread at the first operation that touches it (`rate - 200` for a
non-integer rate, `.lower()` for a non-string language or gender), cutting
the call sequence short at that point. -/
def speak_run (available : List String) (text language gender rate : JsonVal)
    (volume : Int) : List EngineCall :=
  .setVolume (max 0 (min 100 volume)) ::
    match rate with
    | .num r =>
      .setRate (rate_to_sapi r) ::
        match language, gender with
        | .str l, .str g =>
          (select_voice available l g).events ++ [.speakAsync text]
        | _, _ => []
    | _ => []

/-- `speak` (WinToTalk.py lines 88-103): first `cancel_speech()` (the
unconditional purge), then the `run()` body dispatched on the speak thread. -/
def speak (available : List String) (text language gender rate : JsonVal)
    (volume : Int) : List EngineCall :=
  cancel_speech ++ speak_run available text language gender rate volume

/-- Python `dict.get(key)` on a parsed JSON object: `none` when absent. -/
def dget : List (String × JsonVal) → String → Option JsonVal
  | [], _ => none
  | (k, v) :: rest, key => if k = key then some v else dget rest key

/-- `data.get("Type", "").lower()` (line 117): default `""` when the field is
absent, lowercase a string, raise (`AttributeError`) on any non-string. -/
def typeField : Option JsonVal → Except Unit (List Char)
  | none => .ok "".data
  | some (.str s) => .ok (lowerL s)
  | some _ => .error ()

/-- `voice_info = data.get("Voice", {})` followed by `voice_info.get(...)`
(lines 122-123): default empty object when absent, a JSON object passes
through, `.get` on any non-object raises. -/
def voiceField : Option JsonVal → Except Unit (List (String × JsonVal))
  | none => .ok []
  | some (.obj f) => .ok f
  | some _ => .error ()

/-- The dispatch of `process_message` (WinToTalk.py lines 117-139) in terms
of the five wire fields it reads: `Type`, `Payload`, `Language`, `Voice`
(whose nested `Name` is the gender hint) and `Rate`. The `Speaker` field is
read only for logging and does not influence the engine calls. A `"say"`
type dispatches `speak` with the documented defaults; `"cancel"` dispatches
`cancel_speech`; any other type is a no-op. -/
def process_core (available : List String)
    (tyv payloadv langv voicev ratev : Option JsonVal) :
    Except Unit (List EngineCall) :=
  match typeField tyv with
  | .error e => .error e
  | .ok msg_type =>
    if msg_type = "say".data then
      match voiceField voicev with
      | .error e => .error e
      | .ok voice_info =>
        .ok (speak available (payloadv.getD (.str ""))
          (langv.getD (.str "English"))
          ((dget voice_info "Name").getD (.str "None"))
          (ratev.getD (.num DEFAULT_RATE)) DEFAULT_VOLUME)
    else if msg_type = "cancel".data then .ok cancel_speech
    else .ok []

/-- The body of `process_message`'s `try` block applied to a parsed JSON
value: `data.get` on a non-object raises, otherwise the five fields are
extracted and dispatched by `process_core`. -/
def process_data (available : List String) : JsonVal →
    Except Unit (List EngineCall)
  | .obj fields =>
    process_core available (dget fields "Type") (dget fields "Payload")
      (dget fields "Language") (dget fields "Voice") (dget fields "Rate")
  | _ => .error ()

/-- An inbound transport message: either a frame `json.loads` fails to parse,
or the parsed JSON value. -/
inductive Inbound where
  | malformed : Inbound
  | parsed : JsonVal → Inbound

/-- The `except` clause of `process_message` (lines 138-139): an exception
raised while handling a message is logged and discarded, producing no engine
call. -/
def caught : Except Unit (List EngineCall) → List EngineCall
  | .ok trace => trace
  | .error _ => []

/-- `process_message` (WinToTalk.py lines 115-139): the whole body runs in a
`try/except` that logs and discards any exception, so a parse failure or a
field of the wrong shape yields no engine call at all. -/
def process_message (available : List String) : Inbound → List EngineCall
  | .malformed => []
  | .parsed j => caught (process_data available j)

/-- Whether a speak payload is the empty string: `Speak("", 1)` synthesizes
nothing, so it leaves no utterance in progress. -/
def emptyText : JsonVal → Bool
  | .str s => s = ""
  | _ => false

/-- Abstract state of the external engine: current volume, rate, selected
voice, and whether an utterance may still be in progress (`active`). -/
structure EngineState where
  volume : Int
  rate : Int
  voice : Option String
  active : Bool
deriving DecidableEq

/-- Effect of one engine call on the engine state. `purge` stops any audio
(`active := false`); an asynchronous speak of nonempty text starts an
utterance, while a speak of the empty string produces no audio (the spec
glossary defines an utterance as one continuous unit of synthesized
speech). -/
def applyCall (s : EngineState) : EngineCall → EngineState
  | .purge => { s with active := false }
  | .setVolume v => { s with volume := v }
  | .setRate r => { s with rate := r }
  | .setVoice d => { s with voice := some d }
  | .speakAsync t => { s with active := !(emptyText t) }

/-- Run a sequence of engine calls from a starting state. -/
def applyTrace : EngineState → List EngineCall → EngineState
  | s, [] => s
  | s, c :: rest => applyTrace (applyCall s c) rest

/-- Scan of a call trace checking the purge-before-speak discipline: the flag
records whether a purge has been seen since the last speak call; every
`speakAsync` must find the flag set (a purge occurred with no other speak in
between) and clears it. -/
def purgeBeforeSpeak : Bool → List EngineCall → Bool
  | _, [] => true
  | _, .purge :: rest => purgeBeforeSpeak true rest
  | ok, .speakAsync _ :: rest => ok && purgeBeforeSpeak false rest
  | ok, _ :: rest => purgeBeforeSpeak ok rest

/-- Arguments of one `speak` invocation. -/
structure SpeakReq where
  text : JsonVal
  language : JsonVal
  gender : JsonVal
  rate : JsonVal
  volume : Int

/-- Engine calls produced by a sequence of `speak` invocations with no
intervening `cancel_speech`. -/
def speakSeq (available : List String) : List SpeakReq → List EngineCall
  | [] => []
  | r :: rest =>
    speak available r.text r.language r.gender r.rate r.volume ++
      speakSeq available rest

/-- The six engine voice descriptions of the configured catalog, as the
available-voice list for concrete scenarios. -/
def sixVoices : List String :=
  [EN_NEUTRAL, EN_FEMALE, EN_MALE, DE_NEUTRAL, DE_FEMALE, DE_MALE]

/-- The Scenario A wire message
`{"Type":"Say","Payload":"Hello","Language":"English","Voice":{"Name":"Male"},"Rate":300}`. -/
def scenarioA : JsonVal :=
  .obj [("Type", .str "Say"), ("Payload", .str "Hello"),
    ("Language", .str "English"), ("Voice", .obj [("Name", .str "Male")]),
    ("Rate", .num 300)]

/-- A `"say"` message carrying no `Payload` field. -/
def sayNoPayload : JsonVal := .obj [("Type", .str "say")]

/-! ### Helper lemmas -/

/-- Truncating division by 20 is monotone in the dividend. -/
theorem tdiv20_mono {a b : ℤ} (h : a ≤ b) : a.tdiv 20 ≤ b.tdiv 20 := by
  rcases le_or_lt 0 a with ha | ha
  · rw [Int.tdiv_eq_ediv ha (by norm_num), Int.tdiv_eq_ediv (ha.trans h) (by norm_num)]
    exact Int.ediv_le_ediv (by norm_num) h
  · rcases le_or_lt 0 b with hb | hb
    · have h1 : (-a).tdiv 20 = -(a.tdiv 20) := Int.neg_tdiv a 20
      have h2 : 0 ≤ (-a).tdiv 20 := Int.tdiv_nonneg (by omega) (by norm_num)
      have h3 : 0 ≤ b.tdiv 20 := Int.tdiv_nonneg hb (by norm_num)
      omega
    · have h1 : (-a).tdiv 20 = -(a.tdiv 20) := Int.neg_tdiv a 20
      have h2 : (-b).tdiv 20 = -(b.tdiv 20) := Int.neg_tdiv b 20
      have h3 : (-b).tdiv 20 ≤ (-a).tdiv 20 := by
        rw [Int.tdiv_eq_ediv (by omega) (by norm_num),
          Int.tdiv_eq_ediv (by omega) (by norm_num)]
        exact Int.ediv_le_ediv (by norm_num) (by omega)
      omega

/-- The purge-before-speak scan only gets easier when a purge is already
pending. -/
theorem pbs_mono : ∀ (l : List EngineCall) (b : Bool),
    purgeBeforeSpeak false l = true → purgeBeforeSpeak b l = true := by
  intro l
  induction l with
  | nil => intro b _; rfl
  | cons c rest ih =>
    intro b h
    cases c with
    | purge => simpa [purgeBeforeSpeak] using h
    | setVolume v => simp only [purgeBeforeSpeak] at h ⊢; exact ih b h
    | setRate r => simp only [purgeBeforeSpeak] at h ⊢; exact ih b h
    | setVoice d => simp only [purgeBeforeSpeak] at h ⊢; exact ih b h
    | speakAsync t => simp [purgeBeforeSpeak] at h

/-- Every trace a single `speak` produces satisfies the purge-before-speak
discipline and reestablishes it for whatever trace follows. -/
theorem speak_pbs (available : List String) (t l g r : JsonVal) (vol : Int)
    (rest : List EngineCall) (b : Bool)
    (h : purgeBeforeSpeak false rest = true) :
    purgeBeforeSpeak b (speak available t l g r vol ++ rest) = true := by
  unfold speak cancel_speech speak_run
  cases r with
  | num rr =>
    cases l with
    | str ls =>
      cases g with
      | str gs =>
        rcases hfv : findVoice (VOICE_MAP (chooseVoiceId ls gs)) available
            with _ | v <;>
          simp [select_voice, hfv, purgeBeforeSpeak, h]
      | num x => simp [purgeBeforeSpeak]; exact pbs_mono rest true h
      | obj x => simp [purgeBeforeSpeak]; exact pbs_mono rest true h
      | null => simp [purgeBeforeSpeak]; exact pbs_mono rest true h
    | num x => simp [purgeBeforeSpeak]; exact pbs_mono rest true h
    | obj x => simp [purgeBeforeSpeak]; exact pbs_mono rest true h
    | null => simp [purgeBeforeSpeak]; exact pbs_mono rest true h
  | str x => simp [purgeBeforeSpeak]; exact pbs_mono rest true h
  | obj x => simp [purgeBeforeSpeak]; exact pbs_mono rest true h
  | null => simp [purgeBeforeSpeak]; exact pbs_mono rest true h

/-- The voice identity `select_voice` picks does not depend on the engine's
available voices. -/
theorem select_voice_chosen (available : List String) (l g : String) :
    (select_voice available l g).chosen = chooseVoiceId l g := by
  unfold select_voice
  rcases h : findVoice (VOICE_MAP (chooseVoiceId l g)) available with _ | v <;>
    simp [h]

/-- When no available voice matches, `findVoice` returns `none`. -/
theorem findVoice_none (n : String) : ∀ (l : List String),
    (∀ d ∈ l, hasSub (lowerL n) (lowerL d) = false) →
    findVoice n l = none := by
  intro l
  induction l with
  | nil => intro _; rfl
  | cons d rest ih =>
    intro h
    have hd := h d (by simp)
    simp only [findVoice, hd, Bool.false_eq_true, if_false]
    exact ih fun x hx => h x (by simp [hx])

/-- The only volume value a `speak` trace ever sets is the clamped `volume`
argument. -/
theorem speak_setVolume_val (available : List String) (t l g r : JsonVal)
    (vol c : Int) (hm : EngineCall.setVolume c ∈ speak available t l g r vol) :
    c = max 0 (min 100 vol) := by
  unfold speak cancel_speech speak_run at hm
  cases r with
  | num rr =>
    cases l with
    | str ls =>
      cases g with
      | str gs =>
        rcases hfv : findVoice (VOICE_MAP (chooseVoiceId ls gs)) available
            with _ | v <;> simp [select_voice, hfv] at hm <;> omega
      | num x => simp at hm; omega
      | obj x => simp at hm; omega
      | null => simp at hm; omega
    | num x => simp at hm; omega
    | obj x => simp at hm; omega
    | null => simp at hm; omega
  | str x => simp at hm; omega
  | obj x => simp at hm; omega
  | null => simp at hm; omega

/-- Every `speak` trace does set the clamped volume. -/
theorem speak_setVolume_mem (available : List String) (t l g r : JsonVal)
    (vol : Int) :
    EngineCall.setVolume (max 0 (min 100 vol)) ∈ speak available t l g r vol := by
  unfold speak cancel_speech speak_run
  cases r <;> simp

/-- After a `speak` trace runs, the engine volume is the clamped `volume`
argument, whatever engine calls came later in the trace. -/
theorem speak_volume_after (available : List String) (t l g r : JsonVal)
    (vol : Int) (s : EngineState) :
    (applyTrace s (speak available t l g r vol)).volume =
      max 0 (min 100 vol) := by
  unfold speak cancel_speech speak_run
  cases r with
  | num rr =>
    cases l with
    | str ls =>
      cases g with
      | str gs =>
        rcases hfv : findVoice (VOICE_MAP (chooseVoiceId ls gs)) available
            with _ | v <;> simp [select_voice, hfv, applyTrace, applyCall]
      | num x => simp [applyTrace, applyCall]
      | obj x => simp [applyTrace, applyCall]
      | null => simp [applyTrace, applyCall]
    | num x => simp [applyTrace, applyCall]
    | obj x => simp [applyTrace, applyCall]
    | null => simp [applyTrace, applyCall]
  | str x => simp [applyTrace, applyCall]
  | obj x => simp [applyTrace, applyCall]
  | null => simp [applyTrace, applyCall]

/-- Dispatch shapes: a successful `process_core` result is the empty trace,
the cancel trace, or a `speak` trace at the default volume. -/
theorem process_core_ok (available : List String)
    (tyv pv lv vv rv : Option JsonVal) (tr : List EngineCall)
    (h : process_core available tyv pv lv vv rv = .ok tr) :
    tr = [] ∨ tr = cancel_speech ∨
      ∃ t l g r, tr = speak available t l g r DEFAULT_VOLUME := by
  unfold process_core at h
  split at h
  · simp at h
  · split_ifs at h with hsay hc
    · split at h
      · simp at h
      · simp only [Except.ok.injEq] at h
        exact Or.inr (Or.inr ⟨_, _, _, _, h.symm⟩)
    · simp only [Except.ok.injEq] at h
      exact Or.inr (Or.inl h.symm)
    · simp only [Except.ok.injEq] at h
      exact Or.inl h.symm

/-! ### Claim theorems -/

/-- C1: for every sequence of `Speak` calls issued without an intervening
`Cancel`, the engine never receives a second speak call without a purge call
preceding it with no other speak call in between: each `speak` invocation
unconditionally issues the purge before dispatching its own engine speak
call, even when no utterance is active (the scan starts with no purge
pending, so even the first speak call must be preceded by its own purge). -/
theorem claim_C1 : ∀ (available : List String) (reqs : List SpeakReq),
    purgeBeforeSpeak false (speakSeq available reqs) = true := by
  intro a reqs
  induction reqs with
  | nil => rfl
  | cons r rest ih =>
    exact speak_pbs a r.text r.language r.gender r.rate r.volume _ false ih

/-- C2: Scenario A. Handling the parsed message
`{"Type":"Say","Payload":"Hello","Language":"English","Voice":{"Name":"Male"},"Rate":300}`
with the six configured voices available resolves the voice identity
`EN_MALE`, normalizes the rate to `+5`, and produces exactly the engine call
sequence purge, volume 100, rate 5, voice set to the `EN_MALE` display name,
then the asynchronous speak of "Hello". -/
theorem claim_C2 :
    process_message sixVoices (.parsed scenarioA) =
      [.purge, .setVolume 100, .setRate 5, .setVoice EN_MALE,
        .speakAsync (.str "Hello")] ∧
    (select_voice sixVoices "English" "Male").chosen = .EN_MALE ∧
    (select_voice sixVoices "English" "Male").name = EN_MALE ∧
    rate_to_sapi 300 = 5 :=
  ⟨rfl, rfl, rfl, rfl⟩

/-- C3 counterexample: at wpm 215 the code returns 0 (Python `int(15 / 20)`
truncates toward zero), while the claimed formula with rounding to the
nearest integer gives `round(0.75) = 1`. -/
theorem claim_C3_counterexample :
    rate_to_sapi 215 ≠ max (-10) (min 10 (round (((215 : ℚ) - 200) / 20))) := by
  have h : round (((215 : ℚ) - 200) / 20) = 1 := by norm_num [round_eq]
  rw [h]; decide

/-- C3 amended: for every integer wpm the rate normalizer returns
`clamp(trunc((wpm - 200) / 20), -10, 10)` where `trunc` truncates toward
zero (not rounding to nearest); in particular each full 20-wpm step away
from the 200-wpm baseline changes the engine rate by one unit until the
clamp binds: the rate at `200 + 20 k` is `clamp(k, -10, 10)`. -/
theorem claim_C3_amended :
    (∀ wpm : ℤ, rate_to_sapi wpm = max (-10) (min 10 ((wpm - 200).tdiv 20))) ∧
    (∀ k : ℤ, rate_to_sapi (200 + 20 * k) = max (-10) (min 10 k)) := by
  constructor
  · intro wpm; rfl
  · intro k
    show max (-10) (min 10 ((200 + 20 * k - 200).tdiv 20)) = max (-10) (min 10 k)
    rw [show (200 : ℤ) + 20 * k - 200 = 20 * k by ring,
      Int.mul_tdiv_cancel_left k (by norm_num)]

/-- C4: the rate normalizer is monotonically non-decreasing over all
integers, its result always lies in `[-10, 10]`, and it maps 200 to 0, 220
to 1, 0 to -10 and 10000 to 10 — out-of-range inputs clamp silently (the
function is total and the extreme inputs 0 and 10000 land on the clamp
bounds rather than erroring). -/
theorem claim_C4 :
    (∀ a b : ℤ, a ≤ b → rate_to_sapi a ≤ rate_to_sapi b) ∧
    (∀ w : ℤ, -10 ≤ rate_to_sapi w ∧ rate_to_sapi w ≤ 10) ∧
    rate_to_sapi 200 = 0 ∧ rate_to_sapi 220 = 1 ∧
    rate_to_sapi 0 = -10 ∧ rate_to_sapi 10000 = 10 := by
  refine ⟨?_, ?_, by decide, by decide, by decide, by decide⟩
  · intro a b h
    show max (-10) (min 10 ((a - 200).tdiv 20)) ≤
      max (-10) (min 10 ((b - 200).tdiv 20))
    have hd := tdiv20_mono (show a - 200 ≤ b - 200 by omega)
    omega
  · intro w
    show -10 ≤ max (-10) (min 10 ((w - 200).tdiv 20)) ∧
      max (-10) (min 10 ((w - 200).tdiv 20)) ≤ 10
    omega

/-- C4 witness: the monotonicity part of C4 applied at the concrete inputs
180 and 260, and the range part at 9999. -/
theorem claim_C4_witness :
    rate_to_sapi 180 ≤ rate_to_sapi 260 ∧
    (-10 ≤ rate_to_sapi 9999 ∧ rate_to_sapi 9999 ≤ 10) :=
  ⟨claim_C4.1 180 260 (by decide), claim_C4.2.1 9999⟩

/-- C5: voice resolution is total (it is a Lean function into the
six-valued `VoiceId` type, with no error case) and, for every pair of
strings and every available-voice list, the identity `select_voice` picks
coincides with the specification's resolution rule: language lowercasing to
something starting with "german" selects the German axis, anything else
English; gender hint case-insensitively equal to "male"/"female" selects
that gender and anything else Neutral. -/
theorem claim_C5 : ∀ (available : List String) (language gender : String),
    (select_voice available language gender).chosen =
      resolveSpec language gender := by
  intro a l g
  rw [select_voice_chosen]
  rfl

/-- C6: when no enumerated engine voice description contains the target
display name as a case-insensitive substring, `select_voice` still returns
(no exception): it yields the chosen identity with the fallback name
"Default system voice", takes the warning branch, sets no engine voice, and
a `speak` with those arguments still dispatches its asynchronous engine
speak call using whatever voice the engine defaults to. -/
theorem claim_C6 (available : List String) (language gender : String)
    (txt : JsonVal) (r vol : Int)
    (h : ∀ d ∈ available,
      hasSub (lowerL (VOICE_MAP (select_voice available language gender).chosen))
        (lowerL d) = false) :
    (select_voice available language gender).name = "Default system voice" ∧
    (select_voice available language gender).warned = true ∧
    (select_voice available language gender).events = [] ∧
    EngineCall.speakAsync txt ∈
      speak available txt (.str language) (.str gender) (.num r) vol := by
  rw [select_voice_chosen] at h
  have hfv : findVoice (VOICE_MAP (chooseVoiceId language gender)) available =
      none := findVoice_none _ available h
  refine ⟨?_, ?_, ?_, ?_⟩
  · simp only [select_voice, hfv]
  · simp only [select_voice, hfv]
  · simp only [select_voice, hfv]
  · simp [speak, cancel_speech, speak_run, select_voice, hfv]

/-- C6 witness: C6 applied to an available-voice list whose single
description matches none of the configured display names. -/
theorem claim_C6_witness :
    (select_voice ["Something Else"] "English" "None").name =
      "Default system voice" ∧
    (select_voice ["Something Else"] "English" "None").warned = true ∧
    (select_voice ["Something Else"] "English" "None").events = [] ∧
    EngineCall.speakAsync (.str "hi") ∈
      speak ["Something Else"] (.str "hi") (.str "English") (.str "None")
        (.num 300) 100 :=
  claim_C6 ["Something Else"] "English" "None" (.str "hi") 300 100 (by decide)

/-- C7: a malformed (unparseable) frame and an empty JSON object are caught
and discarded with no engine call at all, leaving the engine state literally
unchanged; a `"say"` object with no `Payload` field is handled without any
propagated failure and dispatches a speak of the default empty text, after
which no utterance is in progress (`active = false`, the Idle state). -/
theorem claim_C7 : ∀ (available : List String) (s : EngineState),
    process_message available .malformed = [] ∧
    process_message available (.parsed (.obj [])) = [] ∧
    applyTrace s (process_message available .malformed) = s ∧
    applyTrace s (process_message available (.parsed (.obj []))) = s ∧
    (applyTrace s (process_message available (.parsed sayNoPayload))).active =
      false := by
  intro a s
  refine ⟨rfl, rfl, rfl, rfl, ?_⟩
  have key : process_message a (.parsed sayNoPayload) =
      .purge :: .setVolume 100 :: .setRate 5 ::
        ((select_voice a "English" "None").events ++
          [.speakAsync (.str "")]) := rfl
  rw [key]
  unfold select_voice
  rcases hfv : findVoice (VOICE_MAP (chooseVoiceId "English" "None")) a
      with _ | v <;>
    simp [hfv, applyTrace, applyCall, emptyText]

/-- C8: `cancel_speech` issues exactly one purge call to the engine; from
any engine state (in particular when nothing is speaking) it leaves the
state not-active (Idle); and running it twice in a row yields exactly the
same engine state as running it once — it is idempotent. -/
theorem claim_C8 :
    cancel_speech = [.purge] ∧
    (∀ s : EngineState, (applyTrace s cancel_speech).active = false) ∧
    (∀ s : EngineState,
      applyTrace (applyTrace s cancel_speech) cancel_speech =
        applyTrace s cancel_speech) :=
  ⟨rfl, fun _ => rfl, fun _ => rfl⟩

/-- C9: no engine call sequence the handler ever produces sets a volume
other than 100 (no wire field is read as a volume), and every successfully
dispatched `"say"` message does set volume 100, so the engine volume equals
100 after every handled say message regardless of message content. -/
theorem claim_C9 :
    (∀ (available : List String) (inb : Inbound) (c : Int),
      EngineCall.setVolume c ∈ process_message available inb → c = 100) ∧
    (∀ (available : List String) (fields : List (String × JsonVal))
      (ty : String) (tr : List EngineCall),
      dget fields "Type" = some (.str ty) → lowerL ty = "say".data →
      process_data available (.obj fields) = .ok tr →
      EngineCall.setVolume 100 ∈ tr ∧
        ∀ s : EngineState, (applyTrace s tr).volume = 100) := by
  constructor
  · intro a inb c hm
    cases inb with
    | malformed => simp [process_message] at hm
    | parsed j =>
      simp only [process_message] at hm
      rcases hpd : process_data a j with e | tr
      · rw [hpd] at hm; simp [caught] at hm
      · rw [hpd] at hm
        simp only [caught] at hm
        have hshape : tr = [] ∨ tr = cancel_speech ∨
            ∃ t l g r, tr = speak a t l g r DEFAULT_VOLUME := by
          cases j with
          | obj fields => exact process_core_ok a _ _ _ _ _ tr hpd
          | str x => simp [process_data] at hpd
          | num x => simp [process_data] at hpd
          | null => simp [process_data] at hpd
        rcases hshape with h0 | h0 | ⟨t, l, g, r, h0⟩
        · rw [h0] at hm; simp at hm
        · rw [h0] at hm; simp [cancel_speech] at hm
        · rw [h0] at hm
          have := speak_setVolume_val a t l g r DEFAULT_VOLUME c hm
          simpa [DEFAULT_VOLUME] using this
  · intro a fields ty tr hT hsay hok
    simp only [process_data] at hok
    rw [hT] at hok
    simp only [process_core, typeField, hsay, if_pos] at hok
    rcases hvf : voiceField (dget fields "Voice") with e | vi
    · rw [hvf] at hok; simp at hok
    · rw [hvf] at hok
      simp only [Except.ok.injEq] at hok
      subst hok
      constructor
      · exact speak_setVolume_mem a _ _ _ _ DEFAULT_VOLUME
      · intro s
        have := speak_volume_after a ((dget fields "Payload").getD (.str ""))
          ((dget fields "Language").getD (.str "English"))
          ((dget vi "Name").getD (.str "None"))
          ((dget fields "Rate").getD (.num DEFAULT_RATE)) DEFAULT_VOLUME s
        simpa [DEFAULT_VOLUME] using this

/-- C9 witness: the first part of C9 applied to the Scenario A message, and
the second part to a concrete `"Say"` message, discharging the hypotheses by
evaluation. -/
theorem claim_C9_witness :
    (100 : Int) = 100 ∧
    (EngineCall.setVolume 100 ∈
        ([.purge, .setVolume 100, .setRate 5, .speakAsync (.str "x")] :
          List EngineCall) ∧
      ∀ s : EngineState,
        (applyTrace s
          [.purge, .setVolume 100, .setRate 5, .speakAsync (.str "x")]).volume =
          100) :=
  ⟨claim_C9.1 sixVoices (.parsed scenarioA) 100
      (by rw [show process_message sixVoices (.parsed scenarioA) =
          [.purge, .setVolume 100, .setRate 5, .setVoice EN_MALE,
            .speakAsync (.str "Hello")] from rfl]; simp),
    claim_C9.2 [] [("Type", .str "Say"), ("Payload", .str "x")] "Say"
      [.purge, .setVolume 100, .setRate 5, .speakAsync (.str "x")]
      rfl rfl rfl⟩

/-- C10: the top-level `Gender` field of a wire message has no effect: two
parsed object messages whose fields agree on every key other than "Gender"
are handled to identical engine call sequences, because the gender used for
voice selection is taken exclusively from the nested `Voice.Name` field. -/
theorem claim_C10 : ∀ (available : List String)
    (f1 f2 : List (String × JsonVal)),
    (∀ k, k ≠ "Gender" → dget f1 k = dget f2 k) →
    process_message available (.parsed (.obj f1)) =
      process_message available (.parsed (.obj f2)) := by
  intro a f1 f2 h
  have hT := h "Type" (by decide)
  have hP := h "Payload" (by decide)
  have hL := h "Language" (by decide)
  have hV := h "Voice" (by decide)
  have hR := h "Rate" (by decide)
  simp only [process_message, process_data]
  rw [hT, hP, hL, hV, hR]

/-- C10 witness: C10 applied to two concrete `"Say"` messages differing only
in their top-level `Gender` value. -/
theorem claim_C10_witness :
    process_message [] (.parsed (.obj [("Type", .str "Say"),
      ("Payload", .str "hi"), ("Gender", .str "Female")])) =
    process_message [] (.parsed (.obj [("Type", .str "Say"),
      ("Payload", .str "hi"), ("Gender", .str "Male")])) :=
  claim_C10 [] _ _ (by
    intro k hk
    simp only [dget]
    split_ifs with h1 h2 h3
    · rfl
    · rfl
    · exact absurd h3.symm hk
    · rfl)

end WinToTalk
